import Mathlib

/-!
Shallow embedding of the SSH session-management subsystem
(`src-tauri/src/session_manager/manager.rs`,
`src-tauri/src/session_manager/proc.rs`,
`src-tauri/src/plugins/devmode.rs`) of dev-manager-desktop,
with theorems settling the specification claims.

Async effects are embedded as explicit state passing; the behaviour of
collaborator objects (the `exec` result of a `Connection`, the handshake
result of the transport library, the authentication replies) is supplied as
oracle functions, so each manager-level definition mirrors the control
flow of the corresponding Rust function exactly.
-/

namespace DevManager

/-- `session_manager::ErrorKind` as used in `manager.rs`. -/
inductive ErrorKind where
  | NeedsReconnect
  | Authorization
  | NotFound
  | Message
  deriving DecidableEq, Repr

/-- `session_manager::Error { message, kind }`. -/
structure Error where
  message : String
  kind : ErrorKind
  deriving DecidableEq, Repr

/-- The subset of `russh::Error` variants matched in `conn_new`
(`manager.rs` lines 144-147), plus representatives for every other
variant (`Disconnect`, and a catch-all `other` indexed by a code). -/
inductive RusshError where
  | KexInit
  | NoCommonKexAlgo
  | NoCommonKeyAlgo
  | NoCommonCipher
  | Disconnect
  | NotAuthenticated
  | other (code : Nat)
  deriving DecidableEq, Repr

/-- `crate::error::Error` variants used by `proc.rs` and `devmode.rs`
(`Disconnected`, `Unsupported`, `NegativeReply`, `IO`).
Modelled from the spec: `error.rs` itself is not under `src/`;
§7 of the spec lists exactly these kinds for this code. -/
inductive CrateError where
  | Disconnected
  | Unsupported
  | NegativeReply
  | ioError (code message : String)
  deriving DecidableEq, Repr

/-- `device_manager::Device` as consumed by `manager.rs` and
`devmode.rs`: name (pool key), host, port, username, optional
password, optional private key, optional passphrase, `new` flag
(spec §3 data model; fields read at `manager.rs` lines 123, 127,
151-173, 205 and `devmode.rs` line 30). The private key is kept
abstract as its encrypted text. -/
structure Device where
  name : String
  host : String
  port : Nat
  username : String
  password : Option String
  private_key : Option String
  passphrase : Option String
  new : Bool
  deriving DecidableEq, Repr

/-! ## Connection negotiation (`conn_new` lines 142-149, `try_conn`) -/

/-- The four `russh::Error` variants that `conn_new` (lines 144-147)
matches to trigger the legacy-algorithm retry. -/
def isNegotiationError : RusshError → Bool
  | .KexInit => true
  | .NoCommonKexAlgo => true
  | .NoCommonKeyAlgo => true
  | .NoCommonCipher => true
  | _ => false

/-- The negotiation part of `conn_new` (`manager.rs` lines 142-149).
`tryConn b` is the oracle for `self.try_conn(&id, &device, b)`; `H`
abstracts the `(Handle, Option<SignatureHash>)` pair.  Returns the
list of `legacy_algo` flags passed to `try_conn`, in call order,
together with the overall result. -/
def conn_new_negotiate {H : Type} (tryConn : Bool → Except RusshError H) :
    List Bool × Except RusshError H :=
  match tryConn false with
  | .ok v => ([false], .ok v)
  | .error e =>
    if isNegotiationError e then ([false, true], tryConn true)
    else ([false], .error e)

/-! ## The exec/spawn retry loop (`exec` lines 21-40, `spawn` lines 42-56) -/

/-- The environment outcome of one iteration of the retry loop in
`exec`/`spawn`: either `conn_obtain` fails, or it succeeds and the
subsequent `conn.exec`/`conn.spawn` returns `Ok` or `Err`. -/
inductive StepOutcome (α : Type) where
  | connFail (e : Error)
  | opOk (v : α)
  | opErr (e : Error)
  deriving DecidableEq, Repr

/-- The retry loop shared verbatim by `SessionManager::exec`
(lines 27-39) and `SessionManager::spawn` (lines 43-55), over a trace
of per-iteration outcomes: a `conn_obtain` failure propagates via `?`;
an operation success returns; an operation error of kind
`NeedsReconnect` continues the loop; any other error returns.
`none` means the trace ran out while the loop was still retrying;
otherwise the result is paired with the number of connection
acquisitions performed. -/
def retryLoop {α : Type} : List (StepOutcome α) → Option (Except Error α × Nat)
  | [] => none
  | o :: rest =>
    match o with
    | .connFail e => some (.error e, 1)
    | .opOk v => some (.ok v, 1)
    | .opErr e =>
      if e.kind = ErrorKind.NeedsReconnect then
        match retryLoop rest with
        | none => none
        | some (r, n) => some (r, n + 1)
      else some (.error e, 1)

/-- `SessionManager::exec` (lines 21-40): the loop returning the
output bytes of the command. -/
def SessionManager.exec (trace : List (StepOutcome (List Nat))) :
    Option (Except Error (List Nat) × Nat) :=
  retryLoop trace

/-- Abstract stand-in for a `Proc` handle returned by `spawn`. -/
structure ProcHandle where
  id : Nat
  deriving DecidableEq, Repr

/-- `SessionManager::spawn` (lines 42-56): identical loop, returning a
`Proc`. -/
def SessionManager.spawn (trace : List (StepOutcome ProcHandle)) :
    Option (Except Error ProcHandle × Nat) :=
  retryLoop trace

/-! ## Socket-address parsing (`try_conn` line 205)

`try_conn` builds `format!("{}:{}", device.host, device.port)` and feeds
it to `SocketAddr::from_str(..).unwrap()`: a parse failure panics
instead of returning an `Err`.  The grammar below models the Rust
`SocketAddrV4` literal parser (four decimal octets `0..=255` with no
leading zeros, `:`, decimal port `0..=65535`).  IPv6 bracket literals
are not modelled: every non-IPv4-literal string is rejected, as Rust
rejects every DNS hostname. -/

/-- Split a character list at every occurrence of `c`
(the list-of-characters counterpart of `str::split`). -/
def splitOnChar (c : Char) : List Char → List (List Char)
  | [] => [[]]
  | x :: xs =>
    let r := splitOnChar c xs
    if x = c then [] :: r
    else
      match r with
      | [] => [[x]]
      | y :: ys => (x :: y) :: ys

/-- Decimal digits to a number. -/
def digitsToNat (l : List Char) : Nat :=
  l.foldl (fun a c => a * 10 + (c.toNat - 48)) 0

/-- Decimal rendering of a number (`fuel`-bounded helper). -/
def natDigitsAux : Nat → Nat → List Char
  | 0, _ => []
  | fuel + 1, n =>
    if n < 10 then [Char.ofNat (48 + n)]
    else natDigitsAux fuel (n / 10) ++ [Char.ofNat (48 + n % 10)]

/-- Decimal rendering of a number, as `format!` prints a `u16`. -/
def natDigits (n : Nat) : List Char :=
  natDigitsAux (n + 1) n

/-- One IPv4 octet as the Rust `Ipv4Addr` parser accepts it: 1-3 decimal
digits, value at most 255, no leading zero. -/
def parseOctet (s : List Char) : Option Nat :=
  if s.length = 0 ∨ 3 < s.length then none
  else if ¬ (s.all Char.isDigit) then none
  else if 1 < s.length ∧ s.head? = some '0' then none
  else
    let n := digitsToNat s
    if n ≤ 255 then some n else none

/-- An IPv4 literal `a.b.c.d`. -/
def parseIPv4 (s : List Char) : Option (Nat × Nat × Nat × Nat) :=
  match (splitOnChar '.' s).mapM parseOctet with
  | some [a, b, c, d] => some (a, b, c, d)
  | _ => none

/-- A port number as `u16::from_str` accepts it: decimal digits,
value at most 65535. -/
def parsePort (s : List Char) : Option Nat :=
  if s.length = 0 then none
  else if ¬ (s.all Char.isDigit) then none
  else
    let n := digitsToNat s
    if n ≤ 65535 then some n else none

/-- `SocketAddr::from_str` on `"host:port"` strings, restricted to the
IPv4 grammar (see section comment). -/
def parseSocketAddr (s : List Char) :
    Option ((Nat × Nat × Nat × Nat) × Nat) :=
  match splitOnChar ':' s with
  | [host, port] =>
    match parseIPv4 host, parsePort port with
    | some ip, some p => some (ip, p)
    | _, _ => none
  | _ => none

/-- The string `format!("{}:{}", &device.host, &device.port)` of
`try_conn` line 205, as a character list. -/
def Device.addrString (d : Device) : List Char :=
  d.host.toList ++ ':' :: natDigits d.port

/-! ## Connection pool (`conn_obtain` lines 122-138) -/

/-- The pool-relevant state of the `SessionManager`: the `connections` map
(device name → connection), with connections identified by the order
of their creation (`nextId` is the id `conn_new` would assign next).
The `HashMap` is represented as an association list; `insert`
prepends, lookup takes the first hit. -/
structure MgrState where
  connections : List (String × Nat)
  nextId : Nat
  deriving DecidableEq, Repr

/-- `self.connections.lock().unwrap().get(&device.name)`. -/
def MgrState.lookup (s : MgrState) (name : String) : Option Nat :=
  (s.connections.find? (fun p => p.1 = name)).map (fun p => p.2)

/-- Outcome of one `conn_new` call: the address-parse `unwrap` panicked,
or the connect/auth sequence failed with an error, or it succeeded. -/
inductive NewResult where
  | panic
  | err (e : Error)
  | ok
  deriving DecidableEq, Repr

/-- `conn_new` at the granularity the pool model needs: the address
string is parsed first (`try_conn` line 205; failure panics), then the
oracle `res` decides whether connecting and authenticating the
connection that would get id `id` fails. -/
def connNewModel (res : Nat → Option Error) (d : Device) (id : Nat) : NewResult :=
  if (parseSocketAddr d.addrString).isNone then .panic
  else match res id with
    | some e => .err e
    | none => .ok

/-- Result of `conn_obtain`: a connection id with the updated state, an
error, or a panic propagated from `conn_new`. -/
inductive ObtainResult where
  | ok (cid : Nat) (s : MgrState)
  | err (e : Error)
  | panic
  deriving DecidableEq, Repr

/-- `SessionManager::conn_obtain` (lines 122-138): `device.new` always
builds a disposable connection without touching the pool; otherwise a
pool hit returns the shared connection, and a miss creates one and
inserts it under `device.name`.  `newRes` abstracts `conn_new`. -/
def conn_obtain (newRes : Nat → NewResult) (d : Device) (s : MgrState) :
    ObtainResult :=
  if d.new then
    match newRes s.nextId with
    | .panic => .panic
    | .err e => .err e
    | .ok => .ok s.nextId { s with nextId := s.nextId + 1 }
  else
    match s.lookup d.name with
    | some c => .ok c s
    | none =>
      match newRes s.nextId with
      | .panic => .panic
      | .err e => .err e
      | .ok => .ok s.nextId
          ⟨(d.name, s.nextId) :: s.connections, s.nextId + 1⟩

/-- Modelled from the spec: eviction of a dead connection from the pool
by the protocol event handler (`handler.rs`/`connection.rs` are not
under `src/`).  Spec §3: a Connection is "Destroyed (evicted from the
pool) when the protocol handler observes the underlying session has
failed; subsequent lookups transparently create a replacement". -/
def evict (cid : Nat) (s : MgrState) : MgrState :=
  { s with connections := s.connections.filter (fun p => p.2 ≠ cid) }

/-- Overall outcome of a pooled `exec` run: a returned `Result`
together with the ids of the connections acquired (in order) and the
final pool state; or a panic (no `Result` ever returned); or fuel
exhaustion (the retry loop still running). -/
inductive RunResult (α : Type) where
  | value (r : Except Error α) (connIds : List Nat) (s : MgrState)
  | panicked
  | fuelOut
  deriving Repr

/-- The retry loop of `SessionManager::exec` (lines 21-40) and
`SessionManager::spawn` (lines 42-56) over the pool model: each
iteration acquires a connection via `conn_obtain` and runs the
operation (`conn.exec` / `conn.spawn`, oracle `opRes`, deciding per
connection id); a `NeedsReconnect` failure retries after the handler
has evicted the dead connection; any other error, and any
`conn_obtain` error, is returned.  `fuel` bounds the unbounded `loop`
for the embedding. -/
def run_pooled {α : Type} (newRes : Nat → NewResult)
    (opRes : Nat → Except Error α) :
    Nat → Device → MgrState → RunResult α
  | 0, _, _ => .fuelOut
  | fuel + 1, d, s =>
    match conn_obtain newRes d s with
    | .panic => .panicked
    | .err e => .value (.error e) [] s
    | .ok cid s1 =>
      match opRes cid with
      | .ok data => .value (.ok data) [cid] s1
      | .error e =>
        if e.kind = ErrorKind.NeedsReconnect then
          match run_pooled newRes opRes fuel d (evict cid s1) with
          | .value r ids s2 => .value r (cid :: ids) s2
          | .panicked => .panicked
          | .fuelOut => .fuelOut
        else .value (.error e) [cid] s1

/-- `SessionManager::exec` over the pool model. -/
def exec_pooled (newRes : Nat → NewResult)
    (execRes : Nat → Except Error (List Nat)) :
    Nat → Device → MgrState → RunResult (List Nat) :=
  run_pooled newRes execRes

/-- `SessionManager::spawn` over the pool model. -/
def spawn_pooled (newRes : Nat → NewResult)
    (spawnRes : Nat → Except Error ProcHandle) :
    Nat → Device → MgrState → RunResult ProcHandle :=
  run_pooled newRes spawnRes

/-! ## Authentication (`conn_new` lines 151-175) -/

/-- The three authentication paths of `conn_new`. -/
inductive AuthMethod where
  | publickey
  | password
  | noneAuth
  deriving DecidableEq, Repr

/-- Oracles for the collaborator calls in the authentication sequence
of `conn_new`: `decrypt` is `key.priv_key(passphrase, sig_alg)?`,
`authPublickey`/`authPassword`/`authNone` are the
`handle.authenticate_*` calls (returning `Ok(false)` on server
refusal), and `lift` is the `From<russh::Error>` conversion applied by
`?` (the conversion lives in code outside `src/`; kept abstract). -/
structure AuthOracle where
  decrypt : String → Option String → Except Error String
  authPublickey : String → String → Except RusshError Bool
  authPassword : String → String → Except RusshError Bool
  authNone : String → Except RusshError Bool
  lift : RusshError → Error

/-- The authentication sequence of `conn_new` (lines 151-175),
returning the result together with the list of authentication methods
attempted, in order. -/
def authenticate (o : AuthOracle) (d : Device) :
    Except Error Unit × List AuthMethod :=
  match d.private_key with
  | some key =>
    match o.decrypt key d.passphrase with
    | .error e => (.error e, [])
    | .ok k =>
      match o.authPublickey d.username k with
      | .error e => (.error (o.lift e), [.publickey])
      | .ok true => (.ok (), [.publickey])
      | .ok false =>
        (.error ⟨"Device refused pubkey authorization",
          ErrorKind.Authorization⟩, [.publickey])
  | none =>
    match d.password with
    | some pw =>
      match o.authPassword d.username pw with
      | .error e => (.error (o.lift e), [.password])
      | .ok true => (.ok (), [.password])
      | .ok false =>
        (.error ⟨"Device refused password authorization",
          ErrorKind.Authorization⟩, [.password])
    | none =>
      match o.authNone d.username with
      | .error e => (.error (o.lift e), [.noneAuth])
      | .ok true => (.ok (), [.noneAuth])
      | .ok false =>
        (.error ⟨"Device refused authorization",
          ErrorKind.Authorization⟩, [.noneAuth])

/-! ## Shell registry (`manager.rs` lines 86-120) -/

/-- `ShellToken`: opaque unique identifier. -/
structure ShellToken where
  tok : String
  deriving DecidableEq, Repr

/-- The fields of `Shell` that the registry operations read. -/
structure Shell where
  token : ShellToken
  created_at : Nat
  deriving DecidableEq, Repr

/-- `ShellInfo { token, created_at }`, the projection `shell.info()`. -/
structure ShellInfo where
  token : ShellToken
  created_at : Nat
  deriving DecidableEq, Repr

/-- `Shell::info`. -/
def Shell.info (s : Shell) : ShellInfo :=
  ⟨s.token, s.created_at⟩

/-- The `shells` `HashMap<ShellToken, Arc<Shell>>` as an association
list in arbitrary (iteration) order. -/
abbrev ShellRegistry := List (ShellToken × Shell)

/-- `SessionManager::shell_close` (lines 86-95): remove the entry,
spawn the underlying close detached with its error discarded
(`unwrap_or(())`), and return `Ok(())` unconditionally. -/
def shell_close (token : ShellToken) (shells : ShellRegistry) :
    Except Error Unit × ShellRegistry :=
  (.ok (), shells.filter (fun p => p.1 ≠ token))

/-- `SessionManager::shell_find` (lines 97-108). -/
def shell_find (token : ShellToken) (shells : ShellRegistry) :
    Except Error Shell :=
  match (shells.find? (fun p => p.1 = token)).map (fun p => p.2) with
  | some a => .ok a
  | none => .error ⟨"No shell", ErrorKind.NotFound⟩

/-- `SessionManager::shell_list` (lines 110-120): collect the `info()`
projections in map-iteration order, then `sort_by_key(created_at)`
(a stable sort; modelled by `List.mergeSort`). -/
def shell_list (shells : ShellRegistry) : List ShellInfo :=
  (shells.map (fun p => p.2.info)).mergeSort
    (fun a b => a.created_at ≤ b.created_at)

/-! ## Proc (`proc.rs` lines 23-49) -/

/-- `russh::Sig` representative values. -/
inductive Sig where
  | KILL
  | TERM
  | INT
  | HUP
  deriving DecidableEq, Repr

/-- The `russh::ChannelMsg` variants `proc.rs` sends. -/
inductive ChannelMsg where
  | Signal (signal : Sig)
  | Eof
  | Data (data : List Nat)
  deriving DecidableEq, Repr

/-- An `UnboundedSender<ChannelMsg>`: `live` is whether the receiving
pump still exists (`send` on an unbounded channel fails exactly when
the receiver is dropped), `queue` the messages enqueued so far. -/
structure SenderState where
  live : Bool
  queue : List ChannelMsg
  deriving DecidableEq, Repr

/-- `UnboundedSender::send`: enqueues when the receiver is alive,
otherwise errors. -/
def SenderState.send (st : SenderState) (m : ChannelMsg) :
    Except Unit SenderState :=
  if st.live then .ok { st with queue := st.queue ++ [m] }
  else .error ()

/-- The `sender` slot of a `Proc` (`self.sender.lock().unwrap()`):
`none` when the pump has not registered / already cleared it. -/
structure ProcState where
  sender : Option SenderState
  deriving DecidableEq, Repr

/-- `Proc::signal` (`proc.rs` lines 23-36): with a registered sender,
enqueue `Signal { signal }` then `Eof`, each `send` failure mapped to
`Disconnected`; with no sender, return `Disconnected`. -/
def Proc.signal (signal : Sig) (p : ProcState) :
    Except CrateError ProcState :=
  match p.sender with
  | some st =>
    match st.send (.Signal signal) with
    | .error _ => .error .Disconnected
    | .ok st1 =>
      match st1.send .Eof with
      | .error _ => .error .Disconnected
      | .ok st2 => .ok { sender := some st2 }
  | none => .error .Disconnected

/-- `Proc::data` (`proc.rs` lines 38-49): with a registered sender,
enqueue `Data { data }`, a `send` failure mapped to `Disconnected`;
with no sender, return `Disconnected`. -/
def Proc.data (data : List Nat) (p : ProcState) :
    Except CrateError ProcState :=
  match p.sender with
  | some st =>
    match st.send (.Data data) with
    | .error _ => .error .Disconnected
    | .ok st1 => .ok { sender := some st1 }
  | none => .error .Disconnected

/-! ## Devmode token command (`devmode.rs` lines 28-37) -/

/-- The `token` tauri command (`devmode.rs` lines 28-37): a device
whose username is not `"prisoner"` is rejected with `Unsupported`
before `valid_token` runs; otherwise `valid_token` (oracle `vt`, whose
every invocation performs exactly one remote sftp read of the devmode
preference file) decides.  The second component counts those
invocations, i.e. remote reads. -/
def devmode_token (d : Device)
    (vt : Except CrateError (Option String)) :
    Except CrateError String × Nat :=
  if d.username ≠ "prisoner" then (.error .Unsupported, 0)
  else
    match vt with
    | .error e => (.error e, 1)
    | .ok (some t) => (.ok t, 1)
    | .ok none => (.error .Unsupported, 1)

/-! ## Theorems -/

/-- C2: a first-attempt connection failure of one of the four
negotiation kinds causes exactly one retry, with the legacy algorithm
set, whose result (failure included) is propagated; a first-attempt
failure of any other kind causes zero retries and is propagated
immediately; and the four kinds are exactly `KexInit`,
`NoCommonKexAlgo`, `NoCommonKeyAlgo`, `NoCommonCipher`. -/
theorem C2_legacy_retry {H : Type} (tryConn : Bool → Except RusshError H)
    (e : RusshError) (h : tryConn false = .error e) :
    (isNegotiationError e = true →
      conn_new_negotiate tryConn = ([false, true], tryConn true)) ∧
    (isNegotiationError e = false →
      conn_new_negotiate tryConn = ([false], .error e)) ∧
    (∀ e' : RusshError, isNegotiationError e' = true ↔
      (e' = .KexInit ∨ e' = .NoCommonKexAlgo ∨ e' = .NoCommonKeyAlgo ∨
        e' = .NoCommonCipher)) := by
  refine ⟨?_, ?_, ?_⟩
  · intro hk
    simp [conn_new_negotiate, h, hk]
  · intro hk
    simp [conn_new_negotiate, h, hk]
  · intro e'
    cases e' <;> simp [isNegotiationError]

/-- C2 witness: a `KexInit` failure on the modern attempt and a
successful legacy attempt. -/
theorem C2_legacy_retry_witness :
    conn_new_negotiate
        (fun b => if b then Except.ok (0 : Nat)
          else Except.error RusshError.KexInit) =
      ([false, true], Except.ok 0) := by
  have h := (C2_legacy_retry
    (fun b => if b then Except.ok (0 : Nat)
      else Except.error RusshError.KexInit)
    RusshError.KexInit rfl).1 rfl
  simpa using h

/-- C5: with `new=true`, `conn_obtain` returns a fresh connection (the
next creation id) leaving the pool untouched, and a repeated call
returns a distinct fresh connection again, for every pool content;
with `new=false`, a pool hit returns the pooled connection unchanged,
and a pool miss creates the next connection and inserts it under the
device name. -/
theorem C5_pool_policy (newRes : Nat → NewResult) (d : Device)
    (s : MgrState) :
    (d.new = true → newRes s.nextId = .ok →
      conn_obtain newRes d s = .ok s.nextId ⟨s.connections, s.nextId + 1⟩ ∧
      (newRes (s.nextId + 1) = .ok →
        conn_obtain newRes d ⟨s.connections, s.nextId + 1⟩ =
          .ok (s.nextId + 1) ⟨s.connections, s.nextId + 2⟩ ∧
        s.nextId ≠ s.nextId + 1)) ∧
    (d.new = false → ∀ c, s.lookup d.name = some c →
      conn_obtain newRes d s = .ok c s) ∧
    (d.new = false → s.lookup d.name = none → newRes s.nextId = .ok →
      conn_obtain newRes d s =
        .ok s.nextId ⟨(d.name, s.nextId) :: s.connections, s.nextId + 1⟩ ∧
      MgrState.lookup ⟨(d.name, s.nextId) :: s.connections, s.nextId + 1⟩
          d.name = some s.nextId) := by
  refine ⟨?_, ?_, ?_⟩
  · intro hnew hok
    refine ⟨?_, ?_⟩
    · simp [conn_obtain, hnew, hok]
    · intro hok2
      exact ⟨by simp [conn_obtain, hnew, hok2], by omega⟩
  · intro hnew c hc
    simp [conn_obtain, hnew, hc]
  · intro hnew hc hok
    refine ⟨by simp [conn_obtain, hnew, hc, hok], ?_⟩
    simp [MgrState.lookup]

/-- C5 witness: a `new=true` device against a nonempty pool, and a
`new=false` device hitting and missing the pool. -/
theorem C5_pool_policy_witness :
    conn_obtain (fun _ => .ok)
        ⟨"tv", "10.0.0.5", 22, "root", none, none, none, true⟩
        ⟨[("tv", 0)], 7⟩ =
      .ok 7 ⟨[("tv", 0)], 8⟩ ∧
    conn_obtain (fun _ => .ok)
        ⟨"tv", "10.0.0.5", 22, "root", none, none, none, false⟩
        ⟨[("tv", 0)], 7⟩ =
      .ok 0 ⟨[("tv", 0)], 7⟩ := by
  constructor
  · exact ((C5_pool_policy (fun _ => .ok)
      ⟨"tv", "10.0.0.5", 22, "root", none, none, none, true⟩
      ⟨[("tv", 0)], 7⟩).1 rfl rfl).1
  · exact (C5_pool_policy (fun _ => .ok)
      ⟨"tv", "10.0.0.5", 22, "root", none, none, none, false⟩
      ⟨[("tv", 0)], 7⟩).2.1 rfl 0 (by decide)

/-- C7: `signal` and `data` on a `Proc` whose sender slot is empty, or
whose pump receiver is gone, return `Disconnected` (and the
no-sender case has no queue to enqueue into); with a live registered
sender, `signal` enqueues exactly a `Signal` message immediately
followed by `Eof`, and `data` enqueues exactly one `Data` message. -/
theorem C7_proc_disconnected (p : ProcState) (sig : Sig)
    (bytes : List Nat) :
    (p.sender = none →
      Proc.signal sig p = .error .Disconnected ∧
      Proc.data bytes p = .error .Disconnected) ∧
    (∀ st, p.sender = some st → st.live = true →
      Proc.signal sig p =
        .ok ⟨some ⟨true, st.queue ++ [.Signal sig, .Eof]⟩⟩ ∧
      Proc.data bytes p = .ok ⟨some ⟨true, st.queue ++ [.Data bytes]⟩⟩) ∧
    (∀ st, p.sender = some st → st.live = false →
      Proc.signal sig p = .error .Disconnected ∧
      Proc.data bytes p = .error .Disconnected) := by
  refine ⟨?_, ?_, ?_⟩
  · intro h
    simp [Proc.signal, Proc.data, h]
  · intro st h hl
    obtain ⟨live, q⟩ := st
    subst hl
    constructor
    · simp [Proc.signal, h, SenderState.send]
    · simp [Proc.data, h, SenderState.send]
  · intro st h hl
    obtain ⟨live, q⟩ := st
    subst hl
    constructor
    · simp [Proc.signal, h, SenderState.send]
    · simp [Proc.data, h, SenderState.send]

/-- C7 witness: a stopped pump (no sender) and a live sender with one
queued message. -/
theorem C7_proc_disconnected_witness :
    Proc.signal .TERM ⟨none⟩ = .error .Disconnected ∧
    Proc.signal .TERM ⟨some ⟨true, [.Eof]⟩⟩ =
      .ok ⟨some ⟨true, [.Eof, .Signal .TERM, .Eof]⟩⟩ := by
  constructor
  · exact ((C7_proc_disconnected ⟨none⟩ .TERM []).1 rfl).1
  · exact ((C7_proc_disconnected ⟨some ⟨true, [.Eof]⟩⟩ .TERM []).2.1
      ⟨true, [.Eof]⟩ rfl rfl).1

/-- C9: the devmode `token` command returns `Unsupported` without any
remote read when the username of the device is not `"prisoner"`, for every
possible `valid_token` outcome; the token validity check (one remote
read) runs exactly when the username is `"prisoner"`. -/
theorem C9_devmode_prisoner_gate (d : Device)
    (vt : Except CrateError (Option String)) :
    (d.username ≠ "prisoner" →
      devmode_token d vt = (.error .Unsupported, 0)) ∧
    (d.username = "prisoner" → (devmode_token d vt).2 = 1) := by
  constructor
  · intro h
    simp [devmode_token, h]
  · intro h
    cases vt with
    | error e => simp [devmode_token, h]
    | ok o => cases o <;> simp [devmode_token, h]

/-- C9 witness: a device with username `"root"` is rejected with no
remote read even when a valid token would be readable. -/
theorem C9_devmode_prisoner_gate_witness :
    devmode_token ⟨"tv", "10.0.0.5", 22, "root", none, none, none, false⟩
        (.ok (some "abc123")) =
      (.error .Unsupported, 0) :=
  (C9_devmode_prisoner_gate
    ⟨"tv", "10.0.0.5", 22, "root", none, none, none, false⟩
    (.ok (some "abc123"))).1 (by decide)

/-- C1: with a dead pooled connection (its exec fails with
`NeedsReconnect` once) and a working replacement, the pooled retry
loop returns the success value, the retried attempt uses the freshly
created connection `n` (the next creation id, distinct from the dead
pooled `c0`, inserted into the pool), and exactly the two connection
acquisitions `[c0, n]` are observed. -/
theorem C1_retry_fresh_connection (d : Device) (c0 n : Nat)
    (data : List Nat) (msg : String) (f : Nat)
    (newRes : Nat → NewResult) (execRes : Nat → Except Error (List Nat))
    (hnew : d.new = false) (hne : c0 ≠ n)
    (h0 : execRes c0 = .error ⟨msg, ErrorKind.NeedsReconnect⟩)
    (h1 : execRes n = .ok data)
    (hnr : newRes n = .ok) :
    exec_pooled newRes execRes (f + 2) d ⟨[(d.name, c0)], n⟩ =
      .value (.ok data) [c0, n] ⟨[(d.name, n)], n + 1⟩ ∧
    [c0, n].length = 2 ∧ c0 ≠ n := by
  refine ⟨?_, rfl, hne⟩
  show run_pooled newRes execRes (f + 1 + 1) d ⟨[(d.name, c0)], n⟩ = _
  rw [run_pooled]
  simp [conn_obtain, hnew, MgrState.lookup, h0]
  rw [run_pooled]
  simp [conn_obtain, hnew, MgrState.lookup, evict, hne, h1, hnr]

/-- C1 witness: the end-to-end scenario of the spec, returning hi-newline
after one injected `NeedsReconnect`. -/
theorem C1_retry_fresh_connection_witness :
    exec_pooled (fun _ => .ok)
        (fun i => if i = 0
          then .error ⟨"needs reconnect", ErrorKind.NeedsReconnect⟩
          else .ok [104, 105, 10])
        2 ⟨"tv1", "10.0.0.5", 22, "root", none, none, none, false⟩
        ⟨[("tv1", 0)], 1⟩ =
      .value (.ok [104, 105, 10]) [0, 1] ⟨[("tv1", 1)], 2⟩ :=
  (C1_retry_fresh_connection
    ⟨"tv1", "10.0.0.5", 22, "root", none, none, none, false⟩ 0 1
    [104, 105, 10] "needs reconnect" 0 (fun _ => .ok)
    (fun i => if i = 0
      then .error ⟨"needs reconnect", ErrorKind.NeedsReconnect⟩
      else .ok [104, 105, 10])
    rfl (by decide) rfl rfl rfl).1

/-- C4: in the exec/spawn retry loop, an operation error whose kind is
not `NeedsReconnect` is returned to the caller on that very iteration,
unchanged (same kind and message), after any number of preceding
`NeedsReconnect` failures; and the loop never returns an error of kind
`NeedsReconnect` (given that connection acquisition itself never
produces that kind). -/
theorem C4_error_propagation {α : Type} (e : Error)
    (he : e.kind ≠ ErrorKind.NeedsReconnect) :
    (∀ pre : List (StepOutcome α),
      (∀ o ∈ pre, ∃ m, o = StepOutcome.opErr ⟨m, ErrorKind.NeedsReconnect⟩) →
      retryLoop (pre ++ [StepOutcome.opErr e]) =
        some (.error e, pre.length + 1)) ∧
    (∀ trace : List (StepOutcome α),
      (∀ e₂, StepOutcome.connFail e₂ ∈ trace →
        e₂.kind ≠ ErrorKind.NeedsReconnect) →
      ∀ e₂ n, retryLoop trace = some (.error e₂, n) →
        e₂.kind ≠ ErrorKind.NeedsReconnect) := by
  constructor
  · intro pre
    induction pre with
    | nil =>
      intro _
      simp [retryLoop, he]
    | cons o rest ih =>
      intro hpre
      obtain ⟨m, rfl⟩ := hpre _ (List.mem_cons_self o rest)
      have hrest := ih (fun o ho => hpre o (List.mem_cons_of_mem _ ho))
      simp [retryLoop, hrest]
  · intro trace
    induction trace with
    | nil =>
      intro _ e₂ n h
      simp [retryLoop] at h
    | cons o rest ih =>
      intro hcf e₂ n h
      match o with
      | .connFail e₃ =>
        simp [retryLoop] at h
        obtain ⟨h1, _⟩ := h
        exact h1 ▸ hcf e₃ (List.mem_cons_self _ _)
      | .opOk v =>
        simp [retryLoop] at h
      | .opErr e₃ =>
        by_cases hk : e₃.kind = ErrorKind.NeedsReconnect
        · simp [retryLoop, hk] at h
          match hr : retryLoop (α := α) rest with
          | none => rw [hr] at h; simp at h
          | some (r, n') =>
            rw [hr] at h
            simp at h
            obtain ⟨h1, _⟩ := h
            exact ih (fun e₄ he₄ => hcf e₄ (List.mem_cons_of_mem _ he₄))
              e₂ n' (by rw [hr, h1])
        · simp [retryLoop, hk] at h
          obtain ⟨h1, _⟩ := h
          exact h1 ▸ hk

/-- C4 witness: one injected `NeedsReconnect` followed by an
`Authorization` error, returned unchanged with two acquisitions. -/
theorem C4_error_propagation_witness :
    retryLoop (α := List Nat)
        [.opErr ⟨"dead", ErrorKind.NeedsReconnect⟩,
         .opErr ⟨"Device refused password authorization",
           ErrorKind.Authorization⟩] =
      some (.error ⟨"Device refused password authorization",
        ErrorKind.Authorization⟩, 2) := by
  have h := (C4_error_propagation (α := List Nat)
    ⟨"Device refused password authorization", ErrorKind.Authorization⟩
    (by decide)).1
    [.opErr ⟨"dead", ErrorKind.NeedsReconnect⟩]
    (by intro o ho; simp at ho; exact ⟨"dead", ho⟩)
  simpa using h

/-- C6: `shell_close` returns success for every token (unknown tokens
included, the underlying close being detached with its error
discarded), and `shell_find` on the token immediately afterwards
returns the `NotFound` error. -/
theorem C6_close_then_find (token : ShellToken) (shells : ShellRegistry) :
    (shell_close token shells).1 = .ok () ∧
    shell_find token (shell_close token shells).2 =
      .error ⟨"No shell", ErrorKind.NotFound⟩ := by
  refine ⟨rfl, ?_⟩
  have hnone : ((shell_close token shells).2).find?
      (fun p => p.1 = token) = none := by
    apply List.find?_eq_none.mpr
    intro x hx
    simp [shell_close, List.mem_filter] at hx
    simp [hx.2]
  simp [shell_find, hnone]

/-- C8: `shell_list` is sorted ascending by `created_at` and is a
permutation of the registered shell projections, for every registry
content and iteration order. -/
theorem C8_shell_list_sorted (shells : ShellRegistry) :
    (shell_list shells).Pairwise
      (fun a b => a.created_at ≤ b.created_at) ∧
    (shell_list shells).Perm (shells.map (fun p => p.2.info)) := by
  constructor
  · have h := @List.sorted_mergeSort ShellInfo
      (fun a b => decide (a.created_at ≤ b.created_at))
      (fun a b c hab hbc => by
        simp only [decide_eq_true_eq] at hab hbc ⊢
        omega)
      (fun a b => by
        simp only [Bool.or_eq_true, decide_eq_true_eq]
        omega)
      (shells.map (fun p => p.2.info))
    exact (by simpa [shell_list] using h :
        (shell_list shells).Pairwise
          (fun a b => decide (a.created_at ≤ b.created_at) = true)).imp
      (fun hab => by simpa using hab)
  · exact List.mergeSort_perm _ _

/-- C3: authentication method selection is strict, with no fallback:
with a private key configured only public-key authentication is ever
attempted, and a server refusal there yields the `Authorization`
error with no other method attempted; with no key but a password, only
password authentication is attempted, refusal yielding
`Authorization`; with neither, only the `none` login is attempted,
refusal yielding `Authorization`. -/
theorem C3_auth_precedence (o : AuthOracle) (d : Device) :
    (∀ key, d.private_key = some key →
      (∀ m ∈ (authenticate o d).2, m = AuthMethod.publickey) ∧
      (∀ k, o.decrypt key d.passphrase = .ok k →
        o.authPublickey d.username k = .ok false →
        authenticate o d =
          (.error ⟨"Device refused pubkey authorization",
            ErrorKind.Authorization⟩, [.publickey]))) ∧
    (d.private_key = none → ∀ pw, d.password = some pw →
      (authenticate o d).2 = [.password] ∧
      (o.authPassword d.username pw = .ok false →
        authenticate o d =
          (.error ⟨"Device refused password authorization",
            ErrorKind.Authorization⟩, [.password]))) ∧
    (d.private_key = none → d.password = none →
      (authenticate o d).2 = [.noneAuth] ∧
      (o.authNone d.username = .ok false →
        authenticate o d =
          (.error ⟨"Device refused authorization",
            ErrorKind.Authorization⟩, [.noneAuth]))) := by
  refine ⟨?_, ?_, ?_⟩
  · intro key hkey
    constructor
    · intro m
      simp only [authenticate, hkey]
      split
      · simp
      · split <;> simp
    · intro k hd ha
      simp [authenticate, hkey, hd, ha]
  · intro hkey pw hpw
    constructor
    · simp only [authenticate, hkey, hpw]
      match ha : o.authPassword d.username pw with
      | .error e => simp
      | .ok true => simp
      | .ok false => simp
    · intro ha
      simp [authenticate, hkey, hpw, ha]
  · intro hkey hpw
    constructor
    · simp only [authenticate, hkey, hpw]
      match ha : o.authNone d.username with
      | .error e => simp
      | .ok true => simp
      | .ok false => simp
    · intro ha
      simp [authenticate, hkey, hpw, ha]

/-- C3 witness: a device with both a private key and a password
configured, whose server refuses the public key: only the public-key
path is attempted and the result is the `Authorization` error. -/
theorem C3_auth_precedence_witness :
    authenticate
        ⟨fun k _ => .ok k, fun _ _ => .ok false, fun _ _ => .ok true,
          fun _ => .ok true, fun _ => ⟨"io", ErrorKind.Message⟩⟩
        ⟨"tv", "10.0.0.5", 22, "root", some "secret", some "KEY", none,
          false⟩ =
      (.error ⟨"Device refused pubkey authorization",
        ErrorKind.Authorization⟩, [.publickey]) :=
  ((C3_auth_precedence
    ⟨fun k _ => .ok k, fun _ _ => .ok false, fun _ _ => .ok true,
      fun _ => .ok true, fun _ => ⟨"io", ErrorKind.Message⟩⟩
    ⟨"tv", "10.0.0.5", 22, "root", some "secret", some "KEY", none,
      false⟩).1 "KEY" rfl).2 "KEY" rfl rfl

/-- C10 counterexample: a device whose host is the DNS name
`"example.com"` (so `host:port` does not parse as a literal socket
address), but whose name already has a pooled connection: `exec`
returns a `Result` (here a success) without panicking, refuting the
universal never-return-a-Result reading of the claim. -/
theorem C10_counterexample :
    parseSocketAddr (Device.addrString
      ⟨"tv", "example.com", 22, "root", none, none, none, false⟩) =
      none ∧
    exec_pooled
        (connNewModel (fun _ => none)
          ⟨"tv", "example.com", 22, "root", none, none, none, false⟩)
        (fun _ => .ok [104, 105, 10]) 1
        ⟨"tv", "example.com", 22, "root", none, none, none, false⟩
        ⟨[("tv", 0)], 1⟩ =
      .value (.ok [104, 105, 10]) [0] ⟨[("tv", 0)], 1⟩ := by
  constructor
  · decide
  · show run_pooled _ _ (0 + 1) _ _ = _
    rw [run_pooled]
    simp [conn_obtain, MgrState.lookup]

/-- C10 (amended): whenever such a device actually reaches connection
establishment — `new=true`, or no pooled connection under its name —
the address-parse `unwrap` panics, and the retry loop of
`exec`/`spawn`/`shell_open` never returns a `Result`. -/
theorem C10_parse_panic {α : Type} (d : Device)
    (res : Nat → Option Error) (opRes : Nat → Except Error α)
    (s : MgrState) (fuel : Nat)
    (hparse : parseSocketAddr d.addrString = none)
    (hmiss : d.new = true ∨ s.lookup d.name = none)
    (hfuel : 0 < fuel) :
    run_pooled (connNewModel res d) opRes fuel d s = .panicked := by
  match fuel, hfuel with
  | f + 1, _ =>
    rw [run_pooled]
    match hn : d.new with
    | true => simp [conn_obtain, hn, connNewModel, hparse]
    | false =>
      match hmiss with
      | .inl h => rw [hn] at h; exact absurd h (by simp)
      | .inr h => simp [conn_obtain, hn, h, connNewModel, hparse]

/-- C10 amended-claim witness: an empty pool and the `"example.com"`
device panic at once. -/
theorem C10_parse_panic_witness :
    run_pooled
        (connNewModel (fun _ => none)
          ⟨"tv", "example.com", 22, "root", none, none, none, false⟩)
        (fun _ => Except.ok [(104 : Nat)]) 1
        ⟨"tv", "example.com", 22, "root", none, none, none, false⟩
        ⟨[], 0⟩ =
      .panicked :=
  C10_parse_panic
    ⟨"tv", "example.com", 22, "root", none, none, none, false⟩
    (fun _ => none) (fun _ => Except.ok [(104 : Nat)]) ⟨[], 0⟩ 1
    (by decide) (Or.inr rfl) (by decide)

end DevManager
